import Mathlib

/-!
# Verification of the OfflineGPT streaming chat client core

Shallow embedding of the streaming session logic of the `Chat` component
(`frontend/src/components/Chat.tsx`) and of the request-cancellation logic of
`ApiService` (`frontend/src/services/api.ts`).

The embedding models the state the handlers read and write:

* `ChatState` holds the React state of the `Chat` component that the streaming
  core touches: the message log, the `isLoading` / `isTyping` flags, the
  user-visible `error`, the watchdog timer ref (`loadingTimeoutRef`), the
  reconnection attempt counter and the backoff timer ref
  (`reconnectTimeoutRef`).  Timer refs are modelled as `Option Nat` holding the
  delay of the armed timer (`none` = ref is `null`, i.e. no timer armed).
* Messages are modelled by their `role` and `content`; the `id` (a fresh uuid)
  and the `reactions` array are presentational metadata never read by the
  streaming core and are omitted.
* The `done` field of an inbound frame is boolean-like on the wire; it is
  modelled by `JsonVal`, a tagged value that can be a boolean, a string, a
  number, or absent (`null`).
-/

namespace OfflineGPT

/-- Message roles used by the chat log. -/
inductive Role
  | user
  | assistant
  | system
  deriving DecidableEq, Repr

/-- A chat message as the streaming core sees it: role and content.  -/
structure Message where
  role : Role
  content : String
  deriving DecidableEq, Repr

/-- A JSON-ish scalar, used for the boolean-like `done` field of a frame
(`data.done` may arrive as a boolean, a string, a number, or be absent). -/
inductive JsonVal
  | bool (b : Bool)
  | str (s : String)
  | num (n : Int)
  | null
  deriving DecidableEq, Repr

/-- An inbound WebSocket frame after `JSON.parse`, restricted to the fields the
`onmessage` handler reads: `data.error`, `data.message.content` (with `none`
standing for an absent `message` or an absent `content`), and `data.done`. -/
structure Frame where
  error : Option String
  content : Option String
  done : JsonVal
  deriving DecidableEq, Repr

/-- Line 116: `const isDone = data.done === true || data.done === "true" || data.done === 1;` -/
def isDone (d : JsonVal) : Bool :=
  d == .bool true || d == .str "true" || d == .num 1

/-- Constant from line 16: `const LOADING_TIMEOUT = 30000;` (milliseconds). -/
def LOADING_TIMEOUT : Nat := 30000

/-- Constant from line 17: `const MAX_RECONNECT_ATTEMPTS = 3;` -/
def MAX_RECONNECT_ATTEMPTS : Nat := 3

/-- The component state read and written by the streaming core of `Chat`.
Timer refs hold the delay of the armed timer, `none` when the ref is `null`. -/
structure ChatState where
  messages : List Message
  isLoading : Bool
  isTyping : Bool
  error : Option String
  loadingTimeout : Option Nat
  connectionAttempts : Nat
  reconnectTimeout : Option Nat
  deriving DecidableEq, Repr

/-- Lines 125-150: the `setMessages` functional update applied for a frame
carrying (truthy) `data.message.content`.  If the last message exists and has
role `assistant`, the chunk is appended to its `content` (the array is copied
and the last entry replaced); otherwise a new assistant message holding the
chunk is appended. -/
def applyContent (ms : List Message) (text : String) : List Message :=
  match ms.getLast? with
  | some lastMessage =>
      if lastMessage.role = .assistant then
        ms.dropLast ++ [{ lastMessage with content := lastMessage.content ++ text }]
      else
        ms ++ [⟨.assistant, text⟩]
  | none => ms ++ [⟨.assistant, text⟩]

/-- Lines 96-177: the `newWs.onmessage` handler, for a frame that parsed
successfully.  In source order: an `error` field sets the error, clears the
loading/typing flags and the watchdog, and returns early; otherwise `isDone`
is computed, a truthy `message.content` (a non-empty string) sets the typing
flag and applies `applyContent`, and finally the done flag clears the
loading/typing flags and the watchdog. -/
def onmessage (s : ChatState) (f : Frame) : ChatState :=
  match f.error with
  | some e =>
      { s with isLoading := false, isTyping := false,
               error := some ("Server error: " ++ e), loadingTimeout := none }
  | none =>
      let s1 :=
        match f.content with
        | some c =>
            if c = "" then s
            else { s with isTyping := true, messages := applyContent s.messages c }
        | none => s
      if isDone f.done then
        { s1 with isLoading := false, isTyping := false, loadingTimeout := none }
      else s1

/-- A frame carrying only a content delta. -/
def deltaFrame (t : String) : Frame := ⟨none, some t, .null⟩

/-- A frame carrying only the done marker (boolean encoding). -/
def doneFrame : Frame := ⟨none, none, .bool true⟩

/-- Frames delivered in order on one connection are processed one at a time. -/
def processFrames (s : ChatState) (fs : List Frame) : ChatState :=
  fs.foldl onmessage s

/-- The concatenation `t1 ++ t2 ++ ... ++ tN` of the chunk texts. -/
def concatTexts : List String → String
  | [] => ""
  | t :: ts => t ++ concatTexts ts

/-- The effect of a run of content deltas on the message log alone: the handler
skips chunks that are empty strings (the `data.message.content` truthiness
test) and applies `applyContent` for the rest. -/
def applyDeltas (ms : List Message) (ts : List String) : List Message :=
  ts.foldl (fun acc t => if t = "" then acc else applyContent acc t) ms

lemma applyDeltas_cons (ms : List Message) (t : String) (ts : List String) :
    applyDeltas ms (t :: ts) =
      applyDeltas (if t = "" then ms else applyContent ms t) ts := rfl

lemma append_ne_empty_left {a : String} (b : String) (h : a ≠ "") :
    a ++ b ≠ "" := by
  intro hc
  apply h
  have hd := congrArg String.data hc
  simp [String.data_append] at hd
  exact String.ext (by simp [hd.1])

lemma onmessage_deltaFrame_messages (s : ChatState) (t : String) :
    (onmessage s (deltaFrame t)).messages =
      if t = "" then s.messages else applyContent s.messages t := by
  by_cases h : t = "" <;> simp [onmessage, deltaFrame, isDone, h]

lemma processFrames_deltas_messages (ts : List String) :
    ∀ s : ChatState,
      (processFrames s (ts.map deltaFrame)).messages = applyDeltas s.messages ts := by
  induction ts with
  | nil => intro s; rfl
  | cons t ts ih =>
      intro s
      show (processFrames (onmessage s (deltaFrame t)) (ts.map deltaFrame)).messages = _
      rw [ih, onmessage_deltaFrame_messages, applyDeltas_cons]

lemma applyContent_concat_assistant (ms : List Message) (c t : String) :
    applyContent (ms ++ [⟨.assistant, c⟩]) t = ms ++ [⟨.assistant, c ++ t⟩] := by
  simp [applyContent, List.getLast?_concat, List.dropLast_concat]

lemma applyDeltas_assistant (ts : List String) :
    ∀ (ms : List Message) (c : String),
      applyDeltas (ms ++ [⟨.assistant, c⟩]) ts =
        ms ++ [⟨.assistant, c ++ concatTexts ts⟩] := by
  induction ts with
  | nil => intro ms c; simp [applyDeltas, concatTexts, String.append_empty]
  | cons t ts ih =>
      intro ms c
      rw [applyDeltas_cons]
      by_cases ht : t = ""
      · rw [if_pos ht, ih ms c]
        subst ht
        simp [concatTexts, String.empty_append]
      · rw [if_neg ht, applyContent_concat_assistant, ih]
        simp [concatTexts, String.append_assoc]

lemma applyDeltas_fresh (ts : List String) :
    ∀ ms : List Message, (∀ m, ms.getLast? = some m → m.role ≠ .assistant) →
      applyDeltas ms ts =
        if concatTexts ts = "" then ms else ms ++ [⟨.assistant, concatTexts ts⟩] := by
  induction ts with
  | nil => intro ms _; simp [applyDeltas, concatTexts]
  | cons t ts ih =>
      intro ms h
      rw [applyDeltas_cons]
      by_cases ht : t = ""
      · rw [if_pos ht, ih ms h]
        subst ht
        simp [concatTexts, String.empty_append]
      · have happ : applyContent ms t = ms ++ [⟨.assistant, t⟩] := by
          cases hL : ms.getLast? with
          | none => simp [applyContent, hL]
          | some m => simp [applyContent, hL, h m hL]
        rw [if_neg ht, happ, applyDeltas_assistant]
        simp only [concatTexts]
        rw [if_neg (append_ne_empty_left _ ht)]

lemma onmessage_doneFrame (s : ChatState) :
    onmessage s doneFrame =
      { s with isLoading := false, isTyping := false, loadingTimeout := none } := by
  simp [onmessage, doneFrame, isDone]

/-- C1: a sequence of inbound frames carrying texts `t1..tN`, delivered in
order on one open connection and followed by a `Done` frame, leaves the
trailing assistant message holding exactly `t1 ++ t2 ++ ... ++ tN`, however
the text is split across frames: the handler appends each chunk to the last
assistant message and creates a new assistant message when the last message is
not an assistant message.  Stated from a state whose trailing message is not
an assistant message (the state right after the user's turn was logged) and
for a stream whose total text is non-empty. -/
theorem streaming_appends_concat (s : ChatState) (ts : List String)
    (hlast : ∀ m, s.messages.getLast? = some m → m.role ≠ Role.assistant)
    (hne : concatTexts ts ≠ "") :
    (processFrames s (ts.map deltaFrame ++ [doneFrame])).messages =
        s.messages ++ [⟨Role.assistant, concatTexts ts⟩] ∧
    (processFrames s (ts.map deltaFrame ++ [doneFrame])).isLoading = false := by
  have hsplit : processFrames s (ts.map deltaFrame ++ [doneFrame]) =
      onmessage (processFrames s (ts.map deltaFrame)) doneFrame := by
    simp [processFrames, List.foldl_append]
  rw [hsplit, onmessage_doneFrame]
  refine ⟨?_, rfl⟩
  show (processFrames s (ts.map deltaFrame)).messages = _
  rw [processFrames_deltas_messages, applyDeltas_fresh ts s.messages hlast, if_neg hne]

/-- Concrete state used to instantiate the streaming theorems: one user
message already logged, a pending turn with an armed watchdog. -/
def witnessState : ChatState :=
  { messages := [⟨.user, "q"⟩], isLoading := true, isTyping := false,
    error := none, loadingTimeout := some LOADING_TIMEOUT,
    connectionAttempts := 0, reconnectTimeout := none }

theorem streaming_appends_concat_witness :
    concatTexts ["He", "llo", "!"] ≠ "" ∧
    (processFrames witnessState
        (["He", "llo", "!"].map deltaFrame ++ [doneFrame])).messages =
      [⟨Role.user, "q"⟩, ⟨Role.assistant, "Hello!"⟩] ∧
    (processFrames witnessState
        (["He", "llo", "!"].map deltaFrame ++ [doneFrame])).isLoading = false := by
  have h := streaming_appends_concat witnessState ["He", "llo", "!"]
    (by intro m hm; simp [witnessState] at hm; subst hm; decide)
    (by decide)
  exact ⟨by decide, by rw [h.1]; decide, h.2⟩

/-- C2: the three wire encodings of the done marker — boolean `true`, string
`"true"`, and numeric `1` — are observably equivalent: the handler maps a
frame with any of them to the same state, each clears the loading flag, the
typing flag and the watchdog timer, and the content delta carried in the same
frame is applied exactly as it would be by a frame without the done marker. -/
theorem done_encodings_equivalent (s : ChatState) (e : Option String)
    (c : Option String) :
    onmessage s ⟨e, c, .bool true⟩ = onmessage s ⟨e, c, .str "true"⟩ ∧
    onmessage s ⟨e, c, .bool true⟩ = onmessage s ⟨e, c, .num 1⟩ ∧
    (onmessage s ⟨e, c, .bool true⟩).isLoading = false ∧
    (onmessage s ⟨e, c, .bool true⟩).isTyping = false ∧
    (onmessage s ⟨e, c, .bool true⟩).loadingTimeout = none ∧
    (onmessage s ⟨e, c, .bool true⟩).messages =
      (onmessage s ⟨e, c, .null⟩).messages := by
  cases e with
  | some err => simp [onmessage]
  | none =>
      cases c with
      | none => simp [onmessage, isDone]
      | some t => by_cases h : t = "" <;> simp [onmessage, isDone, h]

/-- C9: a frame whose `message.content` is the empty string is not treated as
a content delta (the handler tests `data.message.content` by truthiness): the
message log is untouched, a frame with only an empty delta is a no-op, a done
marker in the same frame still clears the loading state and the watchdog, and
an empty-delta frame behaves exactly like a frame with no content at all. -/
theorem empty_delta_ignored (s : ChatState) (e : Option String) (d : JsonVal) :
    (onmessage s ⟨e, some "", d⟩).messages = s.messages ∧
    onmessage s ⟨none, some "", .null⟩ = s ∧
    (onmessage s ⟨none, some "", .bool true⟩).isLoading = false ∧
    (onmessage s ⟨none, some "", .bool true⟩).isTyping = false ∧
    (onmessage s ⟨none, some "", .bool true⟩).loadingTimeout = none ∧
    onmessage s ⟨e, some "", d⟩ = onmessage s ⟨e, none, d⟩ := by
  refine ⟨?_, by simp [onmessage, isDone], by simp [onmessage, isDone],
    by simp [onmessage, isDone], by simp [onmessage, isDone], ?_⟩ <;>
    · cases e with
      | some err => simp [onmessage]
      | none =>
          simp only [onmessage, isDone]
          split <;> simp

/-- C4 counterexample: after a `Done` frame finalizes the turn (trailing
assistant message `"Hello"`, loading cleared), a later frame carrying
`message.content = "!"` does not start a new assistant message — it is
appended onto the finalized one, leaving two messages with trailing content
`"Hello!"` instead of three messages. -/
theorem late_frame_appends_to_finalized :
    (onmessage
        (onmessage
          ⟨[⟨.user, "hi"⟩, ⟨.assistant, "Hello"⟩], true, true, none,
            some 30000, 0, none⟩
          doneFrame)
        (deltaFrame "!")).messages =
      [⟨Role.user, "hi"⟩, ⟨Role.assistant, "Hello!"⟩] ∧
    (onmessage
        (onmessage
          ⟨[⟨.user, "hi"⟩, ⟨.assistant, "Hello"⟩], true, true, none,
            some 30000, 0, none⟩
          doneFrame)
        (deltaFrame "!")).messages.length = 2 := by
  decide

/-- C4 amended: the handler keys only on the trailing message's role, not on
whether the turn was finalized: a later frame carrying non-empty
`message.content` is appended to the trailing message whenever that message
has role `assistant` (even after a `Done`/`Error` finalized it), and a new
assistant message is started only when the trailing message is absent or not
an assistant message. -/
theorem late_frame_append_rule (s : ChatState) (c : String) (hc : c ≠ "") :
    (∀ m, s.messages.getLast? = some m → m.role = Role.assistant →
        (onmessage s (deltaFrame c)).messages =
          s.messages.dropLast ++ [{ m with content := m.content ++ c }]) ∧
    ((∀ m, s.messages.getLast? = some m → m.role ≠ Role.assistant) →
        (onmessage s (deltaFrame c)).messages = s.messages ++ [⟨Role.assistant, c⟩]) := by
  constructor
  · intro m hm hrole
    rw [onmessage_deltaFrame_messages, if_neg hc]
    simp [applyContent, hm, hrole]
  · intro h
    rw [onmessage_deltaFrame_messages, if_neg hc]
    cases hL : s.messages.getLast? with
    | none => simp [applyContent, hL]
    | some m => simp [applyContent, hL, h m hL]

theorem late_frame_append_rule_witness :
    ("!" : String) ≠ "" ∧
    (onmessage
        ⟨[⟨.user, "hi"⟩, ⟨.assistant, "Hello"⟩], false, false, none, none, 0, none⟩
        (deltaFrame "!")).messages =
      [⟨Role.user, "hi"⟩, ⟨Role.assistant, "Hello!"⟩] := by
  have h := (late_frame_append_rule
      ⟨[⟨.user, "hi"⟩, ⟨.assistant, "Hello"⟩], false, false, none, none, 0, none⟩
      "!" (by decide)).1 ⟨.assistant, "Hello"⟩ rfl rfl
  exact ⟨by decide, by rw [h]; decide⟩

/-- Lines 72-93: the `newWs.onclose` handler.  It clears the loading and
typing flags; on an abnormal close code (≠ 1000) with the attempt counter
below `MAX_RECONNECT_ATTEMPTS` it increments the counter and schedules a
reconnect after `1000 * 2 ^ connectionAttempts` ms (exponential backoff on the
pre-increment counter); on an abnormal close code with the counter at the
maximum it surfaces the terminal error and schedules nothing; on the normal
close code 1000 it does nothing more. -/
def onclose (s : ChatState) (code : Nat) : ChatState :=
  let s0 := { s with isLoading := false, isTyping := false }
  if code ≠ 1000 ∧ s0.connectionAttempts < MAX_RECONNECT_ATTEMPTS then
    { s0 with connectionAttempts := s0.connectionAttempts + 1,
              reconnectTimeout := some (1000 * 2 ^ s0.connectionAttempts) }
  else if s0.connectionAttempts ≥ MAX_RECONNECT_ATTEMPTS ∧ code ≠ 1000 then
    { s0 with error := some "Connection to server was lost. Please refresh the page." }
  else s0

/-- The scheduled reconnect timer fires: the callback (lines 85-89) nulls the
ref and calls `initializeWebSocket`, which clears any remaining reconnect
timer (lines 50-54) before opening the next connection. -/
def retryFire (s : ChatState) : ChatState := { s with reconnectTimeout := none }

/-- One cycle of the repeated-abnormal-closure scenario: the close handler
runs, then its scheduled retry timer fires and the next connection attempt
starts (which again closes abnormally to begin the next cycle). -/
def abnormalCloseCycle (code : Nat) (s : ChatState) : ChatState :=
  retryFire (onclose s code)

/-- The state after `n` complete abnormal-closure/retry cycles. -/
def abnormalCloseTrace (code : Nat) (s : ChatState) : Nat → ChatState
  | 0 => s
  | n + 1 => abnormalCloseCycle code (abnormalCloseTrace code s n)

lemma abnormalCloseTrace_attempts (code : Nat) (s : ChatState)
    (hcode : code ≠ 1000) (h0 : s.connectionAttempts = 0) :
    ∀ k, k ≤ MAX_RECONNECT_ATTEMPTS →
      (abnormalCloseTrace code s k).connectionAttempts = k := by
  intro k hk
  induction k with
  | zero => exact h0
  | succ n ih =>
      have hn := ih (Nat.le_of_succ_le hk)
      have hlt : n < MAX_RECONNECT_ATTEMPTS := Nat.lt_of_succ_le hk
      show (retryFire (onclose (abnormalCloseTrace code s n) code)).connectionAttempts = n + 1
      simp [retryFire, onclose, hn, hcode, hlt]

/-- C3: starting from a fresh connection (attempt counter 0), under repeated
abnormal closures the handler schedules at most `MAX_RECONNECT_ATTEMPTS = 3`
reconnection attempts; the k-th retry (k = 0, 1, 2) is delayed exactly
`1000 * 2 ^ k` ms, the delays are strictly increasing, and once the counter
has reached the maximum a further abnormal closure surfaces the terminal
user-visible error and schedules no retry. -/
theorem backoff_bounded (s : ChatState) (code : Nat)
    (hcode : code ≠ 1000) (h0 : s.connectionAttempts = 0) :
    (∀ k, k < MAX_RECONNECT_ATTEMPTS →
        (onclose (abnormalCloseTrace code s k) code).reconnectTimeout =
            some (1000 * 2 ^ k) ∧
        (onclose (abnormalCloseTrace code s k) code).connectionAttempts = k + 1) ∧
    (∀ j k : Nat, j < k → (1000 * 2 ^ j : Nat) < 1000 * 2 ^ k) ∧
    (onclose (abnormalCloseTrace code s MAX_RECONNECT_ATTEMPTS) code).reconnectTimeout
        = none ∧
    (onclose (abnormalCloseTrace code s MAX_RECONNECT_ATTEMPTS) code).connectionAttempts
        = MAX_RECONNECT_ATTEMPTS ∧
    (onclose (abnormalCloseTrace code s MAX_RECONNECT_ATTEMPTS) code).error =
        some "Connection to server was lost. Please refresh the page." := by
  have hattempts := abnormalCloseTrace_attempts code s hcode h0
  refine ⟨?_, ?_, ?_, ?_, ?_⟩
  · intro k hk
    have hn := hattempts k (Nat.le_of_lt hk)
    constructor <;> simp [onclose, hn, hcode, hk]
  · intro j k hjk
    have hpow : (2 : Nat) ^ j < 2 ^ k :=
      Nat.pow_lt_pow_right (by norm_num) hjk
    omega
  · have hn := hattempts MAX_RECONNECT_ATTEMPTS (Nat.le_refl _)
    have htrace : (abnormalCloseTrace code s MAX_RECONNECT_ATTEMPTS).reconnectTimeout
        = none := by
      show (retryFire _).reconnectTimeout = none
      rfl
    simp [onclose, hn, hcode, htrace]
  · have hn := hattempts MAX_RECONNECT_ATTEMPTS (Nat.le_refl _)
    simp [onclose, hn, hcode]
  · have hn := hattempts MAX_RECONNECT_ATTEMPTS (Nat.le_refl _)
    simp [onclose, hn, hcode]

theorem backoff_bounded_witness :
    (1006 : Nat) ≠ 1000 ∧
    (onclose (abnormalCloseTrace 1006 ⟨[], false, false, none, none, 0, none⟩ 0)
        1006).reconnectTimeout = some 1000 ∧
    (onclose (abnormalCloseTrace 1006 ⟨[], false, false, none, none, 0, none⟩ 1)
        1006).reconnectTimeout = some 2000 ∧
    (onclose (abnormalCloseTrace 1006 ⟨[], false, false, none, none, 0, none⟩ 2)
        1006).reconnectTimeout = some 4000 ∧
    (onclose (abnormalCloseTrace 1006 ⟨[], false, false, none, none, 0, none⟩ 3)
        1006).reconnectTimeout = none ∧
    (onclose (abnormalCloseTrace 1006 ⟨[], false, false, none, none, 0, none⟩ 3)
        1006).error = some "Connection to server was lost. Please refresh the page." := by
  have h := backoff_bounded ⟨[], false, false, none, none, 0, none⟩ 1006
    (by decide) rfl
  exact ⟨by decide,
    ((h.1 0 (by decide)).1).trans (by decide),
    ((h.1 1 (by decide)).1).trans (by decide),
    ((h.1 2 (by decide)).1).trans (by decide),
    h.2.2.1, h.2.2.2.2⟩

/-- Lines 216-234: the effect cleanup run on component teardown and on every
model change: closes the socket with the normal code 1000 ("Component
unmounting or model changing") and clears the watchdog and backoff timer refs.
Returns the new state and the close code used. -/
def effectCleanup (s : ChatState) : ChatState × Nat :=
  ({ s with loadingTimeout := none, reconnectTimeout := none }, 1000)

/-- Line 47: `ws.current.close(1000, "Reconnecting")` on connection swap. -/
def initializeWebSocketCloseCode : Nat := 1000

/-- Line 445: `ws.current.close(1000, "Creating new chat")`. -/
def newChatCloseCode : Nat := 1000

/-- Line 484: `ws.current.close(1000, "Switching conversation")`. -/
def selectConversationCloseCode : Nat := 1000

/-- C6: closing with the normal code 1000 — as the controller does on model
change, teardown, new chat, and conversation switch — yields zero reconnection
attempts: the close handler leaves the attempt counter, the backoff timer and
the error untouched for code 1000, and the teardown cleanup closes with code
1000 and cancels both the watchdog and any scheduled backoff timer. -/
theorem normal_close_no_retry (s : ChatState) :
    (onclose s 1000).reconnectTimeout = s.reconnectTimeout ∧
    (onclose s 1000).connectionAttempts = s.connectionAttempts ∧
    (onclose s 1000).error = s.error ∧
    (effectCleanup s).2 = 1000 ∧
    (effectCleanup s).1.loadingTimeout = none ∧
    (effectCleanup s).1.reconnectTimeout = none ∧
    initializeWebSocketCloseCode = 1000 ∧
    newChatCloseCode = 1000 ∧
    selectConversationCloseCode = 1000 := by
  refine ⟨?_, ?_, ?_, rfl, rfl, rfl, rfl, rfl, rfl⟩ <;> simp [onclose]

/-- Helper for `jsTrim`: drop leading whitespace characters. -/
def dropWhitespaceLeft : List Char → List Char
  | [] => []
  | c :: cs => if c.isWhitespace then dropWhitespaceLeft cs else c :: cs

/-- JavaScript `content.trim()`: strip leading and trailing whitespace. -/
def jsTrim (s : String) : String :=
  ⟨dropWhitespaceLeft (dropWhitespaceLeft s.data.reverse).reverse⟩

/-- Lines 243-283: the synchronous prefix of `handleSendMessage`, up to the
`try` block: rejects a submission that is whitespace-only with no image,
requires a selected model, clears the previous error, appends the user
message (tagged `" [Image attached]"` when an image is attached), sets the
loading flag, and (re)arms the 30000 ms watchdog (any previously armed
watchdog is cleared first and the ref overwritten). -/
def submitPrefix (s : ChatState) (selectedModel content : String)
    (hasImage : Bool) : ChatState :=
  if jsTrim content = "" ∧ hasImage = false then s
  else if selectedModel = "" then
    { s with error := some "Please select a model first" }
  else
    { s with
        error := none,
        messages := s.messages ++
          [⟨.user, if hasImage then content ++ " [Image attached]" else content⟩],
        isLoading := true,
        loadingTimeout := some LOADING_TIMEOUT }

/-- Lines 275-280: the body of the watchdog timer armed by each submission:
clears the loading and typing flags, surfaces the timeout error and nulls the
timer ref. -/
def watchdogFire (s : ChatState) : ChatState :=
  { s with isLoading := false, isTyping := false,
           error := some "Request timed out. Please try again.",
           loadingTimeout := none }

/-- A `setTimeout` callback runs only while its timer is armed (neither
already fired nor cleared by `clearTimeout`): the watchdog event is a no-op
when `loadingTimeoutRef` is null. -/
def watchdogEvent (s : ChatState) : ChatState :=
  if s.loadingTimeout.isSome then watchdogFire s else s

/-- C5: every text-path submission arms the 30000 ms watchdog; if it fires
while armed it clears the loading state and surfaces the timeout error,
disarming itself, so it fires at most once; a `Done` frame or an `Error`
frame cancels the timer, whichever arrives first; and a `Done` frame arriving
after the watchdog fired neither resurrects the cleared loading state nor
touches the message log. -/
theorem watchdog_fires_exactly_once (s : ChatState) (model content : String)
    (img : Bool) :
    (¬(jsTrim content = "" ∧ img = false) → model ≠ "" →
        (submitPrefix s model content img).loadingTimeout = some 30000) ∧
    (s.loadingTimeout.isSome →
        watchdogEvent s =
          { s with isLoading := false, isTyping := false,
                   error := some "Request timed out. Please try again.",
                   loadingTimeout := none }) ∧
    watchdogEvent (watchdogEvent s) = watchdogEvent s ∧
    (∀ (c : Option String) (d : JsonVal), isDone d = true →
        (onmessage s ⟨none, c, d⟩).loadingTimeout = none) ∧
    (∀ (e : String) (c : Option String) (d : JsonVal),
        (onmessage s ⟨some e, c, d⟩).loadingTimeout = none) ∧
    (onmessage (watchdogEvent s) doneFrame).isLoading = false ∧
    (onmessage (watchdogEvent s) doneFrame).messages = (watchdogEvent s).messages := by
  refine ⟨?_, ?_, ?_, ?_, ?_, ?_, ?_⟩
  · intro h1 h2
    have : ¬(jsTrim content = "" ∧ img = false) := h1
    simp [submitPrefix, this, h2, LOADING_TIMEOUT]
  · intro h
    simp [watchdogEvent, h, watchdogFire]
  · by_cases h : s.loadingTimeout.isSome <;>
      simp [watchdogEvent, watchdogFire, h]
  · intro c d hd
    cases c with
    | none => simp [onmessage, hd]
    | some t => by_cases ht : t = "" <;> simp [onmessage, hd, ht]
  · intro e c d
    simp [onmessage]
  · simp [onmessage_doneFrame]
  · simp [onmessage_doneFrame]

theorem watchdog_fires_exactly_once_witness :
    (submitPrefix ⟨[], false, false, none, none, 0, none⟩ "m" "hi" false).loadingTimeout
        = some 30000 ∧
    watchdogEvent ⟨[], true, true, none, some 30000, 0, none⟩ =
      ⟨[], false, false, some "Request timed out. Please try again.", none, 0, none⟩ ∧
    (onmessage (watchdogEvent ⟨[], true, true, none, some 30000, 0, none⟩)
        doneFrame).isLoading = false := by
  have h1 := watchdog_fires_exactly_once
    ⟨[], false, false, none, none, 0, none⟩ "m" "hi" false
  have h2 := watchdog_fires_exactly_once
    ⟨[], true, true, none, some 30000, 0, none⟩ "m" "hi" false
  exact ⟨h1.1 (by decide) (by decide),
    (h2.2.1 rfl).trans (by decide),
    h2.2.2.2.2.2.1⟩

/-- Lines 413-424: the `catch` block of `handleSendMessage`: clears the
loading and typing flags, surfaces the send error, and clears the watchdog. -/
def catchSendError (s : ChatState) : ChatState :=
  { s with isLoading := false, isTyping := false,
           error := some "Failed to send message. Please try again.",
           loadingTimeout := none }

/-- Lines 352-411: the text-only branch of the `try` block of
`handleSendMessage`.  `wsOpen` is whether `ws.current` is in the `OPEN` ready
state at submission time.  If open, the payload is sent at once; otherwise the
attempts counter is reset, the WebSocket is re-initialized, and a
send-after-reconnect callback is scheduled 1000 ms later.  Returns the state,
whether the payload was sent now, and the delay of the scheduled callback. -/
def sendTextPath (s : ChatState) (wsOpen : Bool) : ChatState × Bool × Option Nat :=
  if wsOpen then (s, true, none)
  else ({ s with connectionAttempts := 0 }, false, some 1000)

/-- Lines 385-410: the send-after-reconnect callback.  `wsOpenNow` is the
ready state when the 1000 ms timer fires.  If the socket is open it sends the
payload; otherwise it throws `Error('WebSocket connection failed')` — but the
throw happens inside the timer callback, after the enclosing `try`/`catch`
(lines 285-424) has already returned, so the `catch` block never runs: the
state is unchanged, no error is surfaced, and the loading flag keeps its
value.  Returns the state and whether the payload was sent. -/
def reconnectSendCallback (s : ChatState) (wsOpenNow : Bool) : ChatState × Bool :=
  if wsOpenNow then (s, true) else (s, false)

/-- C7, evaluated at the failing input: a text-only submission made while the
socket is not open schedules the 1000 ms send-after-reconnect callback and
sends nothing now; when the socket is still not open at the deadline, the
callback sends nothing — and, because its throw escapes the already-returned
`try`/`catch`, the state shows no surfaced error (`error = none`) and the
loading flag still set, contradicting the claimed connection-unavailable
error and cleared pending state. -/
theorem connection_unavailable_leaves_pending :
    (sendTextPath
        (submitPrefix ⟨[], false, false, none, none, 0, none⟩ "m" "hi" false)
        false).2.2 = some 1000 ∧
    (sendTextPath
        (submitPrefix ⟨[], false, false, none, none, 0, none⟩ "m" "hi" false)
        false).2.1 = false ∧
    (reconnectSendCallback
        (sendTextPath
          (submitPrefix ⟨[], false, false, none, none, 0, none⟩ "m" "hi" false)
          false).1
        false).2 = false ∧
    (reconnectSendCallback
        (sendTextPath
          (submitPrefix ⟨[], false, false, none, none, 0, none⟩ "m" "hi" false)
          false).1
        false).1.error = none ∧
    (reconnectSendCallback
        (sendTextPath
          (submitPrefix ⟨[], false, false, none, none, 0, none⟩ "m" "hi" false)
          false).1
        false).1.isLoading = true := by
  decide

/-- The outcome of the one-shot multimodal request (`sendMultimodalChatRequest`),
as the `Chat` handler observes it: the awaited response's `message.content`,
or a rejection that lands in the `catch` block. -/
inductive OneShotResult
  | ok (content : String)
  | err
  deriving DecidableEq, Repr

/-- Lines 286-351: the image branch of the `try` block.  On success, the full
response content is appended as one assistant message in a single state
update, loading is cleared and the watchdog cancelled; on failure the `catch`
block (lines 413-424) runs. -/
def sendImagePath (s : ChatState) (r : OneShotResult) : ChatState :=
  match r with
  | .ok content =>
      { s with messages := s.messages ++ [⟨.assistant, content⟩],
               isLoading := false, loadingTimeout := none }
  | .err => catchSendError s

/-- The transport chosen by `handleSendMessage` (lines 286, 352-354, 379): an
image-bearing submission always takes the one-shot REST path; a text-only
submission uses the open WebSocket, or the reconnect-then-send path when the
socket is not open. -/
inductive TransportChoice
  | oneShot
  | wsStream
  | wsRetry
  deriving DecidableEq, Repr

def dispatchRoute (hasImage wsOpen : Bool) : TransportChoice :=
  if hasImage then .oneShot
  else if wsOpen then .wsStream
  else .wsRetry

/-- C8: a submission with an image attached always takes the one-shot path
(never the streaming socket, whatever its ready state); before the response
only the user message has been appended — no pending assistant entry is ever
observable; on success exactly one finalized assistant message holding the
full response is appended atomically, with loading cleared and the watchdog
cancelled; on failure the error is surfaced, loading is cleared, and the
message log is not mutated further. -/
theorem image_path_one_shot (s : ChatState) (model content resp : String)
    (hmodel : model ≠ "") :
    (∀ wsOpen, dispatchRoute true wsOpen = .oneShot) ∧
    (submitPrefix s model content true).messages =
        s.messages ++ [⟨Role.user, content ++ " [Image attached]"⟩] ∧
    (sendImagePath (submitPrefix s model content true) (.ok resp)).messages =
        s.messages ++ [⟨Role.user, content ++ " [Image attached]"⟩,
                       ⟨Role.assistant, resp⟩] ∧
    (sendImagePath (submitPrefix s model content true) (.ok resp)).isLoading = false ∧
    (sendImagePath (submitPrefix s model content true) (.ok resp)).loadingTimeout = none ∧
    (sendImagePath (submitPrefix s model content true) .err).messages =
        (submitPrefix s model content true).messages ∧
    (sendImagePath (submitPrefix s model content true) .err).error =
        some "Failed to send message. Please try again." ∧
    (sendImagePath (submitPrefix s model content true) .err).isLoading = false := by
  refine ⟨fun wsOpen => rfl, ?_, ?_, ?_, ?_, ?_, ?_, ?_⟩ <;>
    simp [submitPrefix, sendImagePath, catchSendError, hmodel]

theorem image_path_one_shot_witness :
    ("m" : String) ≠ "" ∧
    (sendImagePath
        (submitPrefix ⟨[], false, false, none, none, 0, none⟩ "m" "describe" true)
        (.ok "A cat.")).messages =
      [⟨Role.user, "describe [Image attached]"⟩, ⟨Role.assistant, "A cat."⟩] := by
  have h := image_path_one_shot ⟨[], false, false, none, none, 0, none⟩
    "m" "describe" "A cat." (by decide)
  exact ⟨by decide, h.2.2.1.trans (by decide)⟩

/-- The cancellation bookkeeping of `ApiService` (`services/api.ts`):
`cancelTokens` is the `Map<string, CancelTokenSource>` keyed by request id,
modelled as an association list from request id to token-source identity (the
invariant `keysNodup` captures the `Map`'s one-entry-per-key guarantee);
`cancelled` logs every `source.cancel(reason)` call in order; `nextToken`
supplies fresh token-source identities (`axios.CancelToken.source()`). -/
structure ApiState where
  cancelTokens : List (String × Nat)
  cancelled : List (Nat × String)
  nextToken : Nat
  deriving DecidableEq, Repr

/-- `this.cancelTokens.delete(requestId)` (lines 76, 88). -/
def mapDelete (m : List (String × Nat)) (k : String) : List (String × Nat) :=
  m.filter (fun p => p.1 != k)

/-- The association list has no duplicate request ids (intrinsic to a JS
`Map`). -/
def keysNodup (m : List (String × Nat)) : Prop :=
  (m.map Prod.fst).Nodup

/-- Lines 72-82: `getCancelToken` — if a token source is already registered
under the id, cancel it with reason `"Request superseded"` and delete its
entry; then create a fresh source, register it under the id, and return it. -/
def getCancelToken (st : ApiState) (requestId : String) : ApiState × Nat :=
  let st1 :=
    match st.cancelTokens.lookup requestId with
    | some tok =>
        { st with cancelled := st.cancelled ++ [(tok, "Request superseded")],
                  cancelTokens := mapDelete st.cancelTokens requestId }
    | none => st
  let tok := st.nextToken
  ({ st1 with cancelTokens := st1.cancelTokens ++ [(requestId, tok)],
              nextToken := tok + 1 }, tok)

/-- Lines 87-89: `removeCancelToken`. -/
def removeCancelToken (st : ApiState) (requestId : String) : ApiState :=
  { st with cancelTokens := mapDelete st.cancelTokens requestId }

/-- Lines 111-123 (`sendChatRequest`) and the identical try/catch pattern of
every other operation: take a token for the request id, perform the HTTP call
(its outcome is the `succeeded` parameter), and remove the token on both the
success path and the failure path before returning or re-throwing. -/
def sendChatRequest (st : ApiState) (requestId : String) (succeeded : Bool) :
    ApiState × Bool :=
  let st1 := (getCancelToken st requestId).1
  (removeCancelToken st1 requestId, succeeded)

lemma lookup_cons_self (a : String) (b : Nat) (l : List (String × Nat)) :
    ((a, b) :: l).lookup a = some b := by
  simp [List.lookup]

lemma lookup_cons_ne (a k : String) (b : Nat) (l : List (String × Nat))
    (h : k ≠ a) : ((a, b) :: l).lookup k = l.lookup k := by
  simp [List.lookup, beq_false_of_ne h]

lemma mapDelete_cons (a k : String) (b : Nat) (m : List (String × Nat)) :
    mapDelete ((a, b) :: m) k =
      if a = k then mapDelete m k else (a, b) :: mapDelete m k := by
  by_cases h : a = k <;> simp [mapDelete, List.filter_cons, bne_iff_ne, h]

lemma mapDelete_lookup_none (k : String) :
    ∀ m : List (String × Nat), (mapDelete m k).lookup k = none := by
  intro m
  induction m with
  | nil => rfl
  | cons p m ih =>
      cases p with
      | mk a b =>
          rw [mapDelete_cons]
          by_cases h : a = k
          · rw [if_pos h]; exact ih
          · rw [if_neg h, lookup_cons_ne _ _ _ _ (fun he => h he.symm)]
            exact ih

lemma lookup_append_single (k : String) (v : Nat) :
    ∀ m : List (String × Nat), m.lookup k = none →
      (m ++ [(k, v)]).lookup k = some v := by
  intro m
  induction m with
  | nil => intro _; exact lookup_cons_self k v []
  | cons p m ih =>
      cases p with
      | mk a b =>
          intro h
          by_cases hp : k = a
          · subst hp
            rw [lookup_cons_self] at h
            cases h
          · have h' : m.lookup k = none := by
              rwa [lookup_cons_ne _ _ _ _ hp] at h
            rw [List.cons_append, lookup_cons_ne _ _ _ _ hp]
            exact ih h'

lemma lookup_none_keys (k : String) :
    ∀ m : List (String × Nat), m.lookup k = none → k ∉ m.map Prod.fst := by
  intro m
  induction m with
  | nil => intro _ h; simp at h
  | cons p m ih =>
      cases p with
      | mk a b =>
          intro h hk
          by_cases hp : k = a
          · subst hp
            rw [lookup_cons_self] at h
            cases h
          · have h' : m.lookup k = none := by
              rwa [lookup_cons_ne _ _ _ _ hp] at h
            rcases List.mem_cons.mp hk with h1 | h1
            · exact hp h1
            · exact ih h' h1

lemma keysNodup_mapDelete (m : List (String × Nat)) (k : String)
    (h : keysNodup m) : keysNodup (mapDelete m k) :=
  h.sublist ((List.filter_sublist m).map Prod.fst)

lemma mapDelete_keys_not_mem (k : String) (m : List (String × Nat)) :
    k ∉ (mapDelete m k).map Prod.fst := by
  intro hk
  rcases List.mem_map.mp hk with ⟨p, hp, hfst⟩
  have := List.of_mem_filter hp
  simp [hfst] at this

lemma keysNodup_append_single (m : List (String × Nat)) (k : String) (v : Nat)
    (h : keysNodup m) (hk : k ∉ m.map Prod.fst) :
    keysNodup (m ++ [(k, v)]) := by
  unfold keysNodup
  rw [List.map_append]
  refine List.Nodup.append h (List.nodup_singleton k) ?_
  intro a ha hb
  simp only [List.map_cons, List.map_nil, List.mem_singleton] at hb
  subst hb
  exact hk ha

/-- C10: the `ApiService` keeps at most one cancellation token registered per
request id: taking a token under an id that already has an in-flight request
first cancels the prior source with reason `"Request superseded"` and removes
its entry before registering the fresh source (which then is the one
registered under the id); the map's keys stay duplicate-free; and an
operation such as `sendChatRequest` leaves no token registered under its id,
whether the call succeeded or failed. -/
theorem cancel_token_at_most_one (st : ApiState) (requestId : String) (tok : Nat)
    (hnd : keysNodup st.cancelTokens) :
    (st.cancelTokens.lookup requestId = some tok →
        (getCancelToken st requestId).1.cancelled =
          st.cancelled ++ [(tok, "Request superseded")]) ∧
    keysNodup (getCancelToken st requestId).1.cancelTokens ∧
    (getCancelToken st requestId).1.cancelTokens.lookup requestId =
        some st.nextToken ∧
    (∀ succeeded,
        ((sendChatRequest st requestId succeeded).1.cancelTokens.lookup requestId
          = none)) := by
  refine ⟨?_, ?_, ?_, ?_⟩
  · intro h
    simp [getCancelToken, h]
  · cases h : st.cancelTokens.lookup requestId with
    | none =>
        simp only [getCancelToken, h]
        exact keysNodup_append_single _ _ _ hnd (lookup_none_keys _ _ h)
    | some t =>
        simp only [getCancelToken, h]
        exact keysNodup_append_single _ _ _ (keysNodup_mapDelete _ _ hnd)
          (mapDelete_keys_not_mem _ _)
  · cases h : st.cancelTokens.lookup requestId with
    | none =>
        simp only [getCancelToken, h]
        exact lookup_append_single _ _ _ h
    | some t =>
        simp only [getCancelToken, h]
        exact lookup_append_single _ _ _ (mapDelete_lookup_none _ _)
  · intro succeeded
    simp only [sendChatRequest, removeCancelToken]
    exact mapDelete_lookup_none _ _

theorem cancel_token_at_most_one_witness :
    keysNodup (⟨[("chat-1", 5)], [], 6⟩ : ApiState).cancelTokens ∧
    (getCancelToken ⟨[("chat-1", 5)], [], 6⟩ "chat-1").1.cancelled =
        [(5, "Request superseded")] ∧
    (getCancelToken ⟨[("chat-1", 5)], [], 6⟩ "chat-1").1.cancelTokens.lookup "chat-1"
        = some 6 ∧
    (sendChatRequest ⟨[("chat-1", 5)], [], 6⟩ "chat-1" false).1.cancelTokens.lookup
        "chat-1" = none := by
  have h := cancel_token_at_most_one ⟨[("chat-1", 5)], [], 6⟩ "chat-1" 5
    (by simp [keysNodup])
  exact ⟨by simp [keysNodup], (h.1 rfl).trans (by simp), h.2.2.1, h.2.2.2 false⟩

end OfflineGPT
